import Mathlib

/-!
# Verification of the AXP client: token lifecycle and paginated queue fetch

Shallow embedding of `axp_client.py` (class `AxpClient`).  The mutable object
state is the structure `AxpClient`; each method becomes a pure function from
the state (plus a wall-clock reading and the responses the network would
deliver) to the new state and the return value of the method.  Network exchanges
are oracles passed as arguments: an `AuthResult` stands for what one POST to
the token endpoint yields, a `PageResult` for what one GET of a queue page
yields.  `netFailure` covers a non-2xx status, a transport error, and an
unparseable body — in the Python source all three raise before any field of
the JSON body is read, and are caught by the same handlers.  Within one
method call the several `time.time()` reads are modelled by a single `now`
argument.  Python string truthiness (`if not self.bearer_token`) is modelled
by `truthyS`: `None` and the empty string are falsy.
-/

/-- A queue record as the client stores it: `queueId` and `name`,
each field produced by `dict.get`, hence possibly `None`. -/
structure QueueRecord where
  queueId : Option String
  name : Option String
deriving Repr, DecidableEq

/-- The mutable fields of the Python `AxpClient` object that the verified
operations read or write (config fields other than `account_id` only feed the
request bodies, which the network oracle subsumes). -/
structure AxpClient where
  account_id : String
  bearer_token : Option String
  refresh_token : Option String
  token_expires_at : Int
  refresh_token_expires_at : Int
  queues : List QueueRecord
deriving Repr, DecidableEq

/-- Python truthiness of an optional string: `None` and `""` are falsy. -/
def truthyS : Option String → Bool
  | none => false
  | some s => !s.isEmpty

/-- The JSON body of a 2xx token-endpoint response; a `none` field models a
key absent from the JSON object (reading it with `[...]` raises `KeyError`,
reading it with `.get` does not). -/
structure TokenResponse where
  access_token : Option String
  refresh_token : Option String
  expires_in : Option Int
  refresh_expires_in : Option Int
deriving Repr, DecidableEq

/-- Outcome of one POST to the token endpoint, as observed by the client:
either a failure raised before the body is consulted (non-2xx, transport
error, malformed body) or a parsed JSON body. -/
inductive AuthResult
  | netFailure
  | ok (td : TokenResponse)
deriving Repr, DecidableEq

/-- `AxpClient._authenticate`.  Mirrors the Python assignment sequence: each
`token_data["k"]` on a missing key raises `KeyError` *after* the earlier
assignments have already mutated `self`, and the exception handler merely
returns `False`; so a malformed 2xx body can leave the state partially
updated. -/
def _authenticate (st : AxpClient) (now : Int) (resp : AuthResult) :
    AxpClient × Bool :=
  match resp with
  | .netFailure => (st, false)
  | .ok td =>
    match td.access_token with
    | none => (st, false)
    | some a =>
      let st1 := { st with bearer_token := some a }
      match td.refresh_token with
      | none => (st1, false)
      | some r =>
        let st2 := { st1 with refresh_token := some r }
        match td.expires_in with
        | none => (st2, false)
        | some e =>
          let st3 := { st2 with token_expires_at := now + e }
          match td.refresh_expires_in with
          | none => (st3, false)
          | some re =>
            ({ st3 with refresh_token_expires_at := now + re }, true)

/-- `AxpClient._refresh_access_token`.  `refresh_token` is read with `.get`
(old value kept when absent) and `refresh_expires_in` behind an `in` test, so
only `access_token` and `expires_in` can raise `KeyError`. -/
def _refresh_access_token (st : AxpClient) (now : Int) (resp : AuthResult) :
    AxpClient × Bool :=
  match resp with
  | .netFailure => (st, false)
  | .ok td =>
    match td.access_token with
    | none => (st, false)
    | some a =>
      let st1 := { st with bearer_token := some a }
      let st2 := { st1 with refresh_token :=
        match td.refresh_token with
        | some r => some r
        | none => st1.refresh_token }
      match td.expires_in with
      | none => (st2, false)
      | some e =>
        let st3 := { st2 with token_expires_at := now + e }
        let st4 :=
          match td.refresh_expires_in with
          | some re => { st3 with refresh_token_expires_at := now + re }
          | none => st3
        (st4, true)

/-- One network call issued by `get_bearer_token`. -/
inductive NetCall
  | refresh
  | auth
deriving Repr, DecidableEq

/-- `AxpClient.get_bearer_token`.  `refreshResp` / `authResp` are what the
token endpoint would answer to the refresh / authenticate POST, when issued.
Returns the new state, the returned `self.bearer_token`, and the list of
network calls made, in order. -/
def get_bearer_token (st : AxpClient) (now : Int)
    (refreshResp authResp : AuthResult) :
    AxpClient × Option String × List NetCall :=
  if truthyS st.bearer_token = false ∨ st.token_expires_at - 50 ≤ now then
    if truthyS st.refresh_token = true ∧ now < st.refresh_token_expires_at then
      let p := _refresh_access_token st now refreshResp
      if p.2 then (p.1, p.1.bearer_token, [NetCall.refresh])
      else
        let q := _authenticate p.1 now authResp
        (q.1, q.1.bearer_token, [NetCall.refresh, NetCall.auth])
    else
      let q := _authenticate st now authResp
      (q.1, q.1.bearer_token, [NetCall.auth])
  else (st, st.bearer_token, [])

/-- `AxpClient.get_token_expiration_status`: the pair
(`access_token_remaining`, `refresh_token_remaining`). -/
def get_token_expiration_status (st : AxpClient) (now : Int) : Int × Int :=
  ((if st.token_expires_at > 0 then st.token_expires_at - now else 0),
   (if st.refresh_token_expires_at > 0 then st.refresh_token_expires_at - now
    else 0))

/-- Counterexample to claim C3: a 2xx authenticate response whose body has
`access_token` but no `refresh_token` makes `_authenticate` report failure
*after* having overwritten `bearer_token` — the state differs from the state
before the call, a partial update. -/
theorem auth_torn_update_cex :
    _authenticate ⟨"acct", none, none, 0, 0, []⟩ 0
        (.ok ⟨some "newtok", none, none, none⟩)
      = (⟨"acct", some "newtok", none, 0, 0, []⟩, false) ∧
    (⟨"acct", some "newtok", none, 0, 0, []⟩ : AxpClient)
      ≠ ⟨"acct", none, none, 0, 0, []⟩ := by
  exact ⟨rfl, by decide⟩

/-- Claim C3 amended: on HTTP-level or transport failure (raised before the
body is read) both `_authenticate` and `_refresh_access_token` leave the
state exactly unchanged and report failure, and whenever either reports
success the update is a consistent unit (authenticate replaces all four
token fields from the response; refresh sets the access token together with
its expiry); but a 2xx body missing a required field reports failure while
possibly leaving the state partially updated. -/
theorem auth_refresh_atomic_amended (st : AxpClient) (now : Int) :
    _authenticate st now .netFailure = (st, false) ∧
    _refresh_access_token st now .netFailure = (st, false) ∧
    (∀ td st2, _authenticate st now (.ok td) = (st2, true) →
      ∃ a r e re,
        td = ⟨some a, some r, some e, some re⟩ ∧
        st2 = { st with
                bearer_token := some a, refresh_token := some r,
                token_expires_at := now + e,
                refresh_token_expires_at := now + re }) ∧
    (∀ td st2, _refresh_access_token st now (.ok td) = (st2, true) →
      ∃ a e, td.access_token = some a ∧ td.expires_in = some e ∧
        st2.bearer_token = some a ∧ st2.token_expires_at = now + e) := by
  refine ⟨rfl, rfl, ?_, ?_⟩
  · rintro ⟨ta, tr, te, tre⟩ st2 h
    cases ta <;> cases tr <;> cases te <;> cases tre <;>
      simp [_authenticate] at h
    exact ⟨_, _, _, _, rfl, h.symm⟩
  · rintro ⟨ta, tr, te, tre⟩ st2 h
    cases ta <;> cases te <;>
      simp [_refresh_access_token] at h
    all_goals cases tr <;> cases tre <;> simp at h <;>
      exact ⟨_, _, rfl, rfl, by rw [← h], by rw [← h]⟩

/-- Witness for amended C3: a transport failure leaves a concrete state
untouched, and a concrete well-formed success replaces the whole state as a
unit. -/
theorem auth_refresh_atomic_amended_witness :
    (_authenticate ⟨"acct", some "b", some "r", 5, 6, []⟩ 9 .netFailure
      = (⟨"acct", some "b", some "r", 5, 6, []⟩, false)) ∧
    (∃ a r e re,
      (⟨some "na", some "nr", some 3, some 4⟩ : TokenResponse)
        = ⟨some a, some r, some e, some re⟩ ∧
      (⟨"acct", some "na", some "nr", 5, 6, []⟩ : AxpClient)
        = { (⟨"acct", none, none, 0, 0, []⟩ : AxpClient) with
            bearer_token := some a
            refresh_token := some r
            token_expires_at := 2 + e
            refresh_token_expires_at := 2 + re }) :=
  ⟨(auth_refresh_atomic_amended ⟨"acct", some "b", some "r", 5, 6, []⟩ 9).1,
   (auth_refresh_atomic_amended ⟨"acct", none, none, 0, 0, []⟩ 2).2.2.1
     ⟨some "na", some "nr", some 3, some 4⟩
     ⟨"acct", some "na", some "nr", 5, 6, []⟩ rfl⟩

/-- The JSON body of a 2xx queue-page response: the optional `queues` array
(`none` models a body without the key, read with a defaulted get) and
the optional `links.next` string (`none` models either no `links` key or a
`links` object without `next`; the two behave identically in the source). -/
structure PageData where
  queues : Option (List QueueRecord)
  nextLink : Option String
deriving Repr, DecidableEq

/-- Outcome of one GET of a queue page: failure raised before the body is
consulted (non-2xx, transport error, malformed body) or a parsed body. -/
inductive PageResult
  | netFailure
  | ok (pd : PageData)
deriving Repr, DecidableEq

/-- One GET issued by the pagination loop: the URL requested and the bearer
token carried in its Authorization header. -/
structure PageGet where
  url : String
  token : Option String
deriving Repr, DecidableEq

/-- What `get_queues` hands back to its caller: `None`, or the queue list. -/
inductive FetchOutcome
  | failure
  | success (qs : List QueueRecord)
deriving Repr, DecidableEq

/-- Result of the pagination loop: the final value of the `self.queues`
field, the value returned to the caller, and the trace of page GETs. -/
structure GoResult where
  queuesField : List QueueRecord
  outcome : FetchOutcome
  trace : List PageGet
deriving Repr, DecidableEq

/-- The fixed origin the source prepends to every `links.next` value. -/
def queuesBaseUrl : String := "https://na.cc.avayacloud.com"

/-- The first page URL built by `get_queues`. -/
def queuesStartUrl (accountId : String) : String :=
  queuesBaseUrl ++ "/api/admin/match/v1beta/accounts/" ++ accountId ++ "/queues"

/-- The projection applied to each raw queue item:
a dict holding the `queueId` and `name` entries of the raw item, each read with a defaulted get. -/
def projectQueue (q : QueueRecord) : QueueRecord :=
  { queueId := q.queueId, name := q.name }

/-- The `while queues_url:` loop of `get_queues`.  `tok` is the token baked
into the `headers` dict before the loop (the source never rebuilds it);
`acc` is the current `self.queues`; the `Option String` is `queues_url`
(`none` when the loop exits); `pages` is the stream of successive GET
outcomes the server would deliver.  Returns `none` when the page oracle is
exhausted while the loop still wants another page (the run is then outside
the model), otherwise the result of the loop. -/
def get_queues_go (tok : Option String) :
    List QueueRecord → Option String → List PageResult → Option GoResult
  | acc, none, _ => some ⟨acc, .success acc, []⟩
  | _, some _, [] => none
  | acc, some u, .netFailure :: _ => some ⟨acc, .failure, [⟨u, tok⟩]⟩
  | acc, some u, .ok pd :: rest =>
    (get_queues_go tok (acc ++ (pd.queues.getD []).map projectQueue)
        (pd.nextLink.map (fun np => queuesBaseUrl ++ np)) rest).map
      (fun r => ⟨r.queuesField, r.outcome, ⟨u, tok⟩ :: r.trace⟩)

/-- Result of `get_queues`: final object state, the value returned to the
caller, how many times `get_bearer_token` was invoked during the call, and
the trace of page GETs issued. -/
structure FetchResult where
  finalState : AxpClient
  outcome : FetchOutcome
  getTokenCalls : Nat
  trace : List PageGet
deriving Repr, DecidableEq

/-- `AxpClient.get_queues`.  Calls `get_bearer_token` once, bails out with
`None` when no truthy token resulted (leaving `self.queues` untouched),
otherwise resets `self.queues` and runs the pagination loop with the
Authorization header built from the token obtained before the loop. -/
def get_queues (st : AxpClient) (now : Int) (refreshResp authResp : AuthResult)
    (pages : List PageResult) : Option FetchResult :=
  let st1 := (get_bearer_token st now refreshResp authResp).1
  if truthyS st1.bearer_token = false then
    some ⟨st1, .failure, 1, []⟩
  else
    let st2 := { st1 with queues := [] }
    match get_queues_go st1.bearer_token []
        (some (queuesStartUrl st1.account_id)) pages with
    | none => none
    | some g => some ⟨{ st2 with queues := g.queuesField }, g.outcome, 1, g.trace⟩

/-- The items contributed by a list of page outcomes, in order (used to state
what the loop accumulates). -/
def pagesItems : List PageResult → List QueueRecord
  | [] => []
  | .netFailure :: rest => pagesItems rest
  | .ok pd :: rest => (pd.queues.getD []).map projectQueue ++ pagesItems rest

/-- Claim C9: a page whose item list is empty, or whose body lacks the
`queues` key altogether, contributes zero items; with a next link present
the walk does not terminate there but continues at that link. -/
theorem empty_page_continues (tok : Option String) (acc : List QueueRecord)
    (u np : String) (pd : PageData) (rest : List PageResult)
    (hq : pd.queues = none ∨ pd.queues = some [])
    (hn : pd.nextLink = some np) :
    get_queues_go tok acc (some u) (.ok pd :: rest) =
      (get_queues_go tok acc (some (queuesBaseUrl ++ np)) rest).map
        (fun r => ⟨r.queuesField, r.outcome, ⟨u, tok⟩ :: r.trace⟩) := by
  obtain ⟨q, nl⟩ := pd
  simp only at hq hn
  rcases hq with h | h <;> subst h <;> subst hn <;>
    simp [get_queues_go]

/-- Witness for C9: a concrete empty page with a next link; the loop goes on
to fetch the second page. -/
theorem empty_page_continues_witness :
    get_queues_go (some "t") [] (some "u")
        [.ok ⟨some [], some "/p2"⟩, .ok ⟨none, none⟩] =
      (get_queues_go (some "t") [] (some (queuesBaseUrl ++ "/p2"))
          [.ok ⟨none, none⟩]).map
        (fun r => ⟨r.queuesField, r.outcome, ⟨"u", some "t"⟩ :: r.trace⟩) :=
  empty_page_continues (some "t") [] "u" "/p2" ⟨some [], some "/p2"⟩
    [.ok ⟨none, none⟩] (Or.inr rfl) rfl

/-- Counterexample to claim C5: a next link that is already an absolute URL
is *not* used unchanged — the loop still prepends the fixed origin, so the
second GET goes to the concatenation, not to the absolute URL. -/
theorem next_link_absolute_cex :
    get_queues_go (some "t") [] (some "u1")
        [.ok ⟨none, some "https://other.example/p2"⟩, .ok ⟨none, none⟩]
      = some ⟨[], .success [],
          [⟨"u1", some "t"⟩,
           ⟨"https://na.cc.avayacloud.comhttps://other.example/p2",
            some "t"⟩]⟩
      ∧ ("https://na.cc.avayacloud.comhttps://other.example/p2"
          ≠ "https://other.example/p2") := by
  exact ⟨rfl, by decide⟩

/-- Claim C5 amended: whenever a page declares a next link, the next cursor
is unconditionally `queuesBaseUrl ++ link` — the origin is prepended whether
the link is root-relative or already absolute; absence of a next link
terminates the walk and returns the accumulated collection. -/
theorem next_cursor_resolution (tok : Option String) (acc : List QueueRecord)
    (u : String) (pd : PageData) (rest : List PageResult) :
    (∀ np, pd.nextLink = some np →
      get_queues_go tok acc (some u) (.ok pd :: rest) =
        (get_queues_go tok (acc ++ (pd.queues.getD []).map projectQueue)
            (some (queuesBaseUrl ++ np)) rest).map
          (fun r => ⟨r.queuesField, r.outcome, ⟨u, tok⟩ :: r.trace⟩)) ∧
    (pd.nextLink = none →
      get_queues_go tok acc (some u) (.ok pd :: rest) =
        some ⟨acc ++ (pd.queues.getD []).map projectQueue,
              .success (acc ++ (pd.queues.getD []).map projectQueue),
              [⟨u, tok⟩]⟩) := by
  constructor
  · intro np hn
    simp [get_queues_go, hn]
  · intro hn
    simp [get_queues_go, hn]

/-- Witness for amended C5: a one-page walk with no next link terminates
with the single projected item of the page. -/
theorem next_cursor_resolution_witness :
    get_queues_go (some "t") [] (some "s")
        [.ok ⟨some [⟨some "q", some "n"⟩], none⟩]
      = some ⟨[⟨some "q", some "n"⟩], .success [⟨some "q", some "n"⟩],
              [⟨"s", some "t"⟩]⟩ :=
  (next_cursor_resolution (some "t") [] "s"
      ⟨some [⟨some "q", some "n"⟩], none⟩ []).2 rfl

/-- Claim C6: when an access token is held and its expiry is more than 50
seconds after the current time, `get_bearer_token` returns the cached token,
makes no network call, and leaves the whole state unchanged. -/
theorem getToken_valid_returns_cached (st : AxpClient) (now : Int)
    (rr ar : AuthResult)
    (h1 : truthyS st.bearer_token = true)
    (h2 : 50 < st.token_expires_at - now) :
    get_bearer_token st now rr ar = (st, st.bearer_token, []) := by
  unfold get_bearer_token
  rw [if_neg]
  rintro (hc | hc)
  · rw [h1] at hc
    exact absurd hc (by decide)
  · omega

/-- Witness for C6: a concrete state with a token valid for 1000 more
seconds. -/
theorem getToken_valid_returns_cached_witness :
    get_bearer_token ⟨"acct", some "tok", none, 1000, 0, []⟩ 0
        .netFailure .netFailure
      = (⟨"acct", some "tok", none, 1000, 0, []⟩, some "tok", []) :=
  getToken_valid_returns_cached ⟨"acct", some "tok", none, 1000, 0, []⟩ 0
    .netFailure .netFailure (by decide) (by decide)

/-- Claim C7: when the access token is absent or within 50 seconds of
expiry, `get_bearer_token` attempts the refresh grant first whenever a
truthy, unexpired refresh token is held — issuing only that call if it
succeeds, and exactly one authenticate call after it if it fails — and calls
authenticate directly when no valid refresh token exists. -/
theorem getToken_prefers_refresh (st : AxpClient) (now : Int)
    (rr ar : AuthResult)
    (hstale : truthyS st.bearer_token = false ∨ st.token_expires_at - 50 ≤ now) :
    ((truthyS st.refresh_token = true ∧ now < st.refresh_token_expires_at) →
      (((_refresh_access_token st now rr).2 = true →
          (get_bearer_token st now rr ar).2.2 = [NetCall.refresh]) ∧
       ((_refresh_access_token st now rr).2 = false →
          (get_bearer_token st now rr ar).2.2
            = [NetCall.refresh, NetCall.auth]))) ∧
    (¬ (truthyS st.refresh_token = true ∧ now < st.refresh_token_expires_at) →
      (get_bearer_token st now rr ar).2.2 = [NetCall.auth]) := by
  unfold get_bearer_token
  rw [if_pos hstale]
  constructor
  · intro hr
    rw [if_pos hr]
    constructor
    · intro hok
      rw [if_pos hok]
    · intro hfail
      rw [if_neg]
      rw [hfail]
      exact Bool.false_ne_true
  · intro hr
    rw [if_neg hr]

/-- Witness for C7: an empty token state with both network calls failing —
the stale branch is taken and, with no refresh token, only authenticate is
called. -/
theorem getToken_prefers_refresh_witness :
    (get_bearer_token ⟨"acct", none, none, 0, 0, []⟩ 0
        .netFailure .netFailure).2.2 = [NetCall.auth] :=
  (getToken_prefers_refresh ⟨"acct", none, none, 0, 0, []⟩ 0
      .netFailure .netFailure (Or.inl (by decide))).2 (by decide)

/-- Counterexample to claim C2: an access-token expiry that was set (to 10)
and has passed (now = 20) yields a remaining time of -10, a negative value,
so the result is not clamped at 0. -/
theorem expiry_status_negative_cex :
    get_token_expiration_status ⟨"acct", none, none, 10, 0, []⟩ 20 = (-10, 0)
      ∧ (-10 : Int) < 0 := by
  constructor
  · rfl
  · decide

/-- Claim C2 amended: `get_token_expiration_status` returns, for each
component, 0 when the expiry timestamp was never set and the exact remaining
seconds `expiry - now` when it was set — hence a positive remainder while
the expiry is still ahead, but a *negative* value once a previously set
expiry has passed; the result is not clamped at 0. -/
theorem expiry_status_amended (st : AxpClient) (now : Int) (h0 : 0 ≤ now) :
    (st.token_expires_at = 0 →
      (get_token_expiration_status st now).1 = 0) ∧
    (0 < st.token_expires_at →
      (get_token_expiration_status st now).1 = st.token_expires_at - now) ∧
    (now < st.token_expires_at →
      0 < (get_token_expiration_status st now).1) ∧
    (0 < st.token_expires_at → st.token_expires_at < now →
      (get_token_expiration_status st now).1 < 0) ∧
    (st.refresh_token_expires_at = 0 →
      (get_token_expiration_status st now).2 = 0) ∧
    (0 < st.refresh_token_expires_at →
      (get_token_expiration_status st now).2
        = st.refresh_token_expires_at - now) ∧
    (now < st.refresh_token_expires_at →
      0 < (get_token_expiration_status st now).2) ∧
    (0 < st.refresh_token_expires_at → st.refresh_token_expires_at < now →
      (get_token_expiration_status st now).2 < 0) := by
  unfold get_token_expiration_status
  refine ⟨?_, ?_, ?_, ?_, ?_, ?_, ?_, ?_⟩ <;> intros <;> simp only [] <;>
    split <;> omega

/-- Witness for amended C2: state with access expiry set at 10 and refresh
expiry never set, read at time 20: the first component is exactly
10 - 20 = -10, the second is 0. -/
theorem expiry_status_amended_witness :
    (get_token_expiration_status ⟨"acct", none, none, 10, 0, []⟩ 20).1
      = -10 ∧
    (get_token_expiration_status ⟨"acct", none, none, 10, 0, []⟩ 20).1 < 0 ∧
    (get_token_expiration_status ⟨"acct", none, none, 10, 0, []⟩ 20).2 = 0 :=
  ⟨(expiry_status_amended ⟨"acct", none, none, 10, 0, []⟩ 20
      (by decide)).2.1 (by decide),
   (expiry_status_amended ⟨"acct", none, none, 10, 0, []⟩ 20
      (by decide)).2.2.2.1 (by decide) (by decide),
   (expiry_status_amended ⟨"acct", none, none, 10, 0, []⟩ 20
      (by decide)).2.2.2.2.1 rfl⟩

/-- Counterexample to claim C8: a successful refresh response that omits
`refresh_token` but carries `refresh_expires_in` (here 500) reports success
and keeps the old refresh token, yet *moves* the refresh-token expiry (from
7 to now + 500 = 500), so token and expiry are not both unchanged. -/
theorem refresh_omitted_token_cex :
    _refresh_access_token ⟨"acct", some "old", some "rt", 3, 7, []⟩ 0
        (.ok ⟨some "new", none, some 100, some 500⟩)
      = (⟨"acct", some "new", some "rt", 100, 500, []⟩, true)
      ∧ (500 : Int) ≠ 7 := by
  constructor
  · rfl
  · decide

/-- Claim C8 amended: when a successful refresh response omits
`refresh_token`, the held refresh token is kept and the access token and its
expiry are updated; the refresh-token *expiry* is kept only when
`refresh_expires_in` is also omitted (it is overwritten when present). -/
theorem refresh_omitted_token_amended (st : AxpClient) (now : Int)
    (a : String) (e : Int) (rei : Option Int) :
    (_refresh_access_token st now (.ok ⟨some a, none, some e, rei⟩)).2
      = true ∧
    (_refresh_access_token st now
        (.ok ⟨some a, none, some e, rei⟩)).1.bearer_token = some a ∧
    (_refresh_access_token st now
        (.ok ⟨some a, none, some e, rei⟩)).1.token_expires_at = now + e ∧
    (_refresh_access_token st now
        (.ok ⟨some a, none, some e, rei⟩)).1.refresh_token
      = st.refresh_token ∧
    (rei = none →
      (_refresh_access_token st now
          (.ok ⟨some a, none, some e, rei⟩)).1.refresh_token_expires_at
        = st.refresh_token_expires_at) ∧
    (∀ re, rei = some re →
      (_refresh_access_token st now
          (.ok ⟨some a, none, some e, rei⟩)).1.refresh_token_expires_at
        = now + re) := by
  cases rei <;> simp [_refresh_access_token]

/-- Witness for amended C8: concrete refresh with `refresh_token` and
`refresh_expires_in` both omitted — everything about the refresh token is
kept, access token and expiry updated. -/
theorem refresh_omitted_token_amended_witness :
    (_refresh_access_token ⟨"acct", some "old", some "rt", 3, 7, []⟩ 0
        (.ok ⟨some "new", none, some 100, none⟩)).1.refresh_token
      = some "rt" ∧
    (_refresh_access_token ⟨"acct", some "old", some "rt", 3, 7, []⟩ 0
        (.ok ⟨some "new", none, some 100, none⟩)).1.refresh_token_expires_at
      = 7 :=
  ⟨(refresh_omitted_token_amended ⟨"acct", some "old", some "rt", 3, 7, []⟩ 0
      "new" 100 none).2.2.2.1,
   (refresh_omitted_token_amended ⟨"acct", some "old", some "rt", 3, 7, []⟩ 0
      "new" 100 none).2.2.2.2.1 rfl⟩

/-- Helper for C1: every GET the pagination loop issues carries the token
`tok` baked into the headers before the loop. -/
theorem go_trace_token (tok : Option String) (pages : List PageResult) :
    ∀ (acc : List QueueRecord) (url : Option String) (g : GoResult),
      get_queues_go tok acc url pages = some g →
      ∀ pg ∈ g.trace, pg.token = tok := by
  induction pages with
  | nil =>
    intro acc url g h pg hpg
    cases url with
    | none =>
      simp [get_queues_go] at h
      subst h
      simp at hpg
    | some u => simp [get_queues_go] at h
  | cons p rest ih =>
    intro acc url g h pg hpg
    cases url with
    | none =>
      simp [get_queues_go] at h
      subst h
      simp at hpg
    | some u =>
      cases p with
      | netFailure =>
        simp [get_queues_go] at h
        subst h
        simp at hpg
        subst hpg
        rfl
      | ok pd =>
        simp [get_queues_go] at h
        obtain ⟨r, hr, hg⟩ := h
        subst hg
        simp at hpg
        rcases hpg with h1 | h1
        · subst h1
          rfl
        · exact ih _ _ _ hr pg h1

/-- Counterexample to claim C1: a two-page walk issues two page GETs but
invokes `get_bearer_token` only once — the token is not re-obtained for the
second page. -/
theorem token_per_page_cex :
    (get_queues ⟨"acct", some "tok", none, 1000, 0, []⟩ 0
        .netFailure .netFailure
        [.ok ⟨some [⟨some "q1", some "n1"⟩], some "/p2"⟩,
         .ok ⟨some [], none⟩]).map
      (fun r => (r.getTokenCalls, r.trace.length)) = some (1, 2)
      ∧ (1 : Nat) ≠ 2 := by
  exact ⟨rfl, by decide⟩

/-- Claim C1 amended: `get_queues` obtains the bearer token from
`get_bearer_token` exactly once, before the loop, and every page GET of the
walk reuses that same token in its Authorization header. -/
theorem token_fetched_once_amended (st : AxpClient) (now : Int)
    (rr ar : AuthResult) (pages : List PageResult) (r : FetchResult)
    (h : get_queues st now rr ar pages = some r) :
    r.getTokenCalls = 1 ∧
    ∀ pg ∈ r.trace,
      pg.token = (get_bearer_token st now rr ar).1.bearer_token := by
  simp only [get_queues] at h
  split at h
  · simp only [Option.some.injEq] at h
    subst h
    refine ⟨rfl, ?_⟩
    intro pg hpg
    simp at hpg
  · split at h
    · exact absurd h (by simp)
    · rename_i g hg
      simp only [Option.some.injEq] at h
      subst h
      refine ⟨rfl, ?_⟩
      intro pg hpg
      exact go_trace_token _ pages _ _ g hg pg hpg

/-- Witness for amended C1: a concrete one-page walk; the single GET uses
the token the initial `get_bearer_token` call returned. -/
theorem token_fetched_once_amended_witness :
    (⟨⟨"acct", some "tok", none, 1000, 0, []⟩, .success [], 1,
        [⟨queuesStartUrl "acct", some "tok"⟩]⟩ : FetchResult).getTokenCalls
      = 1 ∧
    ∀ pg ∈ (⟨⟨"acct", some "tok", none, 1000, 0, []⟩, .success [], 1,
        [⟨queuesStartUrl "acct", some "tok"⟩]⟩ : FetchResult).trace,
      pg.token = (get_bearer_token ⟨"acct", some "tok", none, 1000, 0, []⟩ 0
          .netFailure .netFailure).1.bearer_token :=
  token_fetched_once_amended ⟨"acct", some "tok", none, 1000, 0, []⟩ 0
    .netFailure .netFailure [.ok ⟨some [], none⟩] _ rfl

/-- Counterexample to claim C4: a walk whose second page GET fails returns
`None` to the caller, yet `self.queues` retains the item appended from the
first page — the partial collection is kept in the stored field, not
discarded. -/
theorem queues_retained_after_failure_cex :
    (get_queues ⟨"acct", some "tok", none, 1000, 0, []⟩ 0
        .netFailure .netFailure
        [.ok ⟨some [⟨some "q1", some "n1"⟩], some "/p2"⟩, .netFailure]).map
      (fun r => (r.outcome, r.finalState.queues))
      = some (.failure, [⟨some "q1", some "n1"⟩]) ∧
    ([⟨some "q1", some "n1"⟩] : List QueueRecord) ≠ [] := by
  exact ⟨rfl, by decide⟩

/-- Claim C4 amended: when a page GET fails after any chain of successful
pages (each carrying a next link), the walk aborts at the failing page — the
caller receives a failure with no collection and later pages are never
consulted — while the stored `queues` field keeps exactly the items
accumulated from the earlier pages. -/
theorem fetch_abort_on_page_failure (tok : Option String) :
    ∀ (ps rest : List PageResult) (acc : List QueueRecord) (u : String),
      (∀ p ∈ ps, ∃ pd np, p = PageResult.ok pd ∧ pd.nextLink = some np) →
      ∃ g, get_queues_go tok acc (some u)
            (ps ++ PageResult.netFailure :: rest) = some g ∧
        g.outcome = .failure ∧
        g.queuesField = acc ++ pagesItems ps ∧
        g.trace.length = ps.length + 1 := by
  intro ps
  induction ps with
  | nil =>
    intro rest acc u _
    refine ⟨⟨acc, .failure, [⟨u, tok⟩]⟩, rfl, rfl, ?_, rfl⟩
    simp [pagesItems]
  | cons p ps ih =>
    intro rest acc u hok
    obtain ⟨pd, np, rfl, hn⟩ := hok p (List.mem_cons_self p ps)
    obtain ⟨g, hg, hfail, hqf, hlen⟩ :=
      ih rest (acc ++ (pd.queues.getD []).map projectQueue)
        (queuesBaseUrl ++ np) (fun q hq => hok q (List.mem_cons_of_mem _ hq))
    refine ⟨⟨g.queuesField, g.outcome, ⟨u, tok⟩ :: g.trace⟩, ?_, hfail, ?_, ?_⟩
    · simp [get_queues_go, hn, hg]
    · rw [hqf]
      simp [pagesItems]
    · simp [hlen]

/-- Witness for amended C4: one successful page with one item, then a
failing page — the result is a failure, the stored field holds the one item,
and exactly two GETs were issued. -/
theorem fetch_abort_on_page_failure_witness :
    ∃ g, get_queues_go (some "t") [] (some "s")
          ([PageResult.ok ⟨some [⟨some "q1", some "n1"⟩], some "/p2"⟩]
            ++ PageResult.netFailure :: []) = some g ∧
      g.outcome = .failure ∧
      g.queuesField
        = [] ++ pagesItems
            [PageResult.ok ⟨some [⟨some "q1", some "n1"⟩], some "/p2"⟩] ∧
      g.trace.length
        = [PageResult.ok ⟨some [⟨some "q1", some "n1"⟩], some "/p2"⟩].length
            + 1 :=
  fetch_abort_on_page_failure (some "t")
    [PageResult.ok ⟨some [⟨some "q1", some "n1"⟩], some "/p2"⟩] [] [] "s"
    (by
      intro p hp
      simp at hp
      subst hp
      exact ⟨⟨some [⟨some "q1", some "n1"⟩], some "/p2"⟩, "/p2", rfl, rfl⟩)

/-- Helper for C10: `_authenticate` never touches the `queues` field. -/
theorem authenticate_queues_eq (st : AxpClient) (now : Int)
    (resp : AuthResult) : (_authenticate st now resp).1.queues = st.queues := by
  cases resp with
  | netFailure => rfl
  | ok td =>
    obtain ⟨ta, tr, te, tre⟩ := td
    cases ta <;> cases tr <;> cases te <;> cases tre <;>
      simp [_authenticate]

/-- Helper for C10: `_refresh_access_token` never touches the `queues`
field. -/
theorem refresh_queues_eq (st : AxpClient) (now : Int)
    (resp : AuthResult) :
    (_refresh_access_token st now resp).1.queues = st.queues := by
  cases resp with
  | netFailure => rfl
  | ok td =>
    obtain ⟨ta, tr, te, tre⟩ := td
    cases ta <;> cases tr <;> cases te <;> cases tre <;>
      simp [_refresh_access_token]

/-- Helper for C10: `get_bearer_token` never touches the `queues` field. -/
theorem getToken_queues_eq (st : AxpClient) (now : Int)
    (rr ar : AuthResult) :
    (get_bearer_token st now rr ar).1.queues = st.queues := by
  simp only [get_bearer_token]
  split
  · split
    · split
      · exact refresh_queues_eq st now rr
      · exact (authenticate_queues_eq
            (_refresh_access_token st now rr).1 now ar).trans
          (refresh_queues_eq st now rr)
    · exact authenticate_queues_eq st now ar
  · rfl

/-- Claim C10: when the initial `get_bearer_token` inside `get_queues`
leaves no truthy bearer token, the fetch returns `None` with no page GET
issued, and the previously stored `queues` collection is untouched (the
reset happens only after the token check succeeds). -/
theorem no_token_aborts_fetch (st : AxpClient) (now : Int)
    (rr ar : AuthResult) (pages : List PageResult)
    (h : truthyS (get_bearer_token st now rr ar).1.bearer_token = false) :
    get_queues st now rr ar pages
      = some ⟨(get_bearer_token st now rr ar).1, .failure, 1, []⟩ ∧
    (get_bearer_token st now rr ar).1.queues = st.queues := by
  constructor
  · simp only [get_queues]
    rw [if_pos h]
  · exact getToken_queues_eq st now rr ar

/-- Witness for C10: both token-endpoint calls fail from an empty token
state; the stored queue collection survives and no page is fetched. -/
theorem no_token_aborts_fetch_witness :
    get_queues ⟨"acct", none, none, 0, 0, [⟨some "x", some "y"⟩]⟩ 3
        .netFailure .netFailure [.netFailure]
      = some ⟨(get_bearer_token ⟨"acct", none, none, 0, 0,
            [⟨some "x", some "y"⟩]⟩ 3 .netFailure .netFailure).1,
          .failure, 1, []⟩ ∧
    (get_bearer_token ⟨"acct", none, none, 0, 0, [⟨some "x", some "y"⟩]⟩ 3
        .netFailure .netFailure).1.queues = [⟨some "x", some "y"⟩] :=
  no_token_aborts_fetch ⟨"acct", none, none, 0, 0, [⟨some "x", some "y"⟩]⟩ 3
    .netFailure .netFailure [.netFailure] (by decide)
